import Mathlib

/-!
Shallow embedding of the diffusion-model core of
`src/improved_diffusion/gaussian_diffusion.py`.

Modelling conventions:
* float64/float32 arithmetic is modelled by real numbers `ℝ`;
* a numpy `[T]`-array derived from `betas` is modelled by the function
  `ℕ → ℝ` giving its value at each index;
* a torch tensor of shape `[B, C, *spatial]` is modelled by `Tensor`:
  its shape fields plus a total indexing function;
* a batch timestep vector `t` is modelled by the function `ℕ → ℕ`
  sending a batch index to its timestep;
* stochastic `th.randn_like` noise is passed as an explicit argument;
* Python runtime failures (assertions, `NameError`, `UnboundLocalError`,
  `TypeError`) are modelled with `Except String`.
-/

namespace ImprovedDiffusion

noncomputable section

/-- `np.linspace(a, b, n)` value at index `i` (real model; `n = 1` yields `a`,
matching numpy's single-sample behaviour). -/
def linspaceVal (a b : ℝ) (n i : ℕ) : ℝ :=
  if n = 1 then a else a + i * ((b - a) / ((n : ℝ) - 1))

/-- `np.linspace(a, b, n)` as a list of `n` samples. -/
def linspaceList (a b : ℝ) (n : ℕ) : List ℝ :=
  (List.range n).map (linspaceVal a b n)

/-- The i-th beta of the "linear" schedule of `get_named_beta_schedule`:
`scale = 1000 / T`, linearly spaced from `scale * 0.0001` to `scale * 0.02`. -/
def betaLinear (T i : ℕ) : ℝ :=
  linspaceVal ((1000 / (T : ℝ)) * 0.0001) ((1000 / (T : ℝ)) * 0.02) T i

/-- `betas_for_alpha_bar(num_diffusion_timesteps, alpha_bar, max_beta)`:
`beta[i] = min(1 - alpha_bar((i+1)/T) / alpha_bar(i/T), max_beta)`. -/
def betas_for_alpha_bar (num_diffusion_timesteps : ℕ) (alpha_bar : ℝ → ℝ)
    (max_beta : ℝ) : List ℝ :=
  (List.range num_diffusion_timesteps).map fun i =>
    min (1 - alpha_bar ((i + 1 : ℕ) / (num_diffusion_timesteps : ℝ)) /
      alpha_bar ((i : ℕ) / (num_diffusion_timesteps : ℝ))) max_beta

/-- The alpha-bar function of the "cosine" schedule:
`cos((u + 0.008) / 1.008 * pi / 2) ** 2`. -/
def alphaBarCos (u : ℝ) : ℝ :=
  (Real.cos ((u + 0.008) / 1.008 * (Real.pi / 2))) ^ 2

/-- The i-th beta of the "cosine" schedule (`betas_for_alpha_bar` with the
cosine alpha-bar and `max_beta = 0.999`). -/
def betaCosine (T i : ℕ) : ℝ :=
  min (1 - alphaBarCos ((i + 1 : ℕ) / (T : ℝ)) / alphaBarCos ((i : ℕ) / (T : ℝ))) 0.999

/-- `get_named_beta_schedule(schedule_name, num_diffusion_timesteps)`:
"linear" and "cosine" are implemented, anything else raises
`NotImplementedError`. -/
def get_named_beta_schedule (schedule_name : String)
    (num_diffusion_timesteps : ℕ) : Except String (List ℝ) :=
  if schedule_name = "linear" then
    .ok (linspaceList ((1000 / (num_diffusion_timesteps : ℝ)) * 0.0001)
      ((1000 / (num_diffusion_timesteps : ℝ)) * 0.02) num_diffusion_timesteps)
  else if schedule_name = "cosine" then
    .ok (betas_for_alpha_bar num_diffusion_timesteps alphaBarCos 0.999)
  else
    .error ("unknown beta schedule: " ++ schedule_name)

/-- Enum `ModelMeanType`. -/
inductive ModelMeanType
  | PREVIOUS_X
  | START_X
  | EPSILON
deriving DecidableEq, Repr

/-- Enum `ModelVarType`. -/
inductive ModelVarType
  | LEARNED
  | FIXED_SMALL
  | FIXED_LARGE
  | LEARNED_RANGE
deriving DecidableEq, Repr

/-- Enum `LossType`. -/
inductive LossType
  | MSE
  | RESCALED_MSE
  | KL
  | RESCALED_KL
  | RESCALED_MSE_BALANCED
  | RESCALED_MSE_V
  | RESCALED_MSE_SNR_PLUS_ONE
deriving DecidableEq, Repr

/-- `LossType.is_vb`. -/
def LossType.is_vb (l : LossType) : Bool :=
  l = LossType.KL ∨ l = LossType.RESCALED_KL

/-- `LossType.is_mse`, embedded with Python truthiness: the source reads
`self == MSE or self == RESCALED_MSE or self == RESCALED_MSE_BALANCED
or LossType.RESCALED_MSE_V or self == RESCALED_MSE_SNR_PLUS_ONE`;
the fourth disjunct is the bare enum member `LossType.RESCALED_MSE_V`
(no comparison with `self`), which is always truthy, so the `or`-chain is
truthy for every input. -/
def LossType.is_mse (l : LossType) : Bool :=
  (l = LossType.MSE ∨ l = LossType.RESCALED_MSE ∨
    l = LossType.RESCALED_MSE_BALANCED ∨ True ∨
    l = LossType.RESCALED_MSE_SNR_PLUS_ONE : Prop)

/-- The MSE-family membership as the spec enumerates it (section 3 of the
spec lists the variants explicitly; this is what `is_mse` is documented to
compute). Modelled from the spec: the explicit MSE-family list. -/
def LossType.is_mse_spec (l : LossType) : Bool :=
  (l = LossType.MSE ∨ l = LossType.RESCALED_MSE ∨
    l = LossType.RESCALED_MSE_BALANCED ∨ l = LossType.RESCALED_MSE_V ∨
    l = LossType.RESCALED_MSE_SNR_PLUS_ONE : Prop)

/-- `np.cumprod(1 - betas)[t]`: the cumulative product of `alpha = 1 - beta`
up to and including index `t` (constructor line
`self.alphas_cumprod = np.cumprod(alphas, axis=0)`). -/
def alphas_cumprod (betas : ℕ → ℝ) (t : ℕ) : ℝ :=
  ∏ i ∈ Finset.range (t + 1), (1 - betas i)

/-- `self.alphas_cumprod_prev = np.append(1.0, self.alphas_cumprod[:-1])`. -/
def alphas_cumprod_prev (betas : ℕ → ℝ) (t : ℕ) : ℝ :=
  if t = 0 then 1 else alphas_cumprod betas (t - 1)

/-- `self.sqrt_alphas_cumprod = np.sqrt(self.alphas_cumprod)`. -/
def sqrt_alphas_cumprod (betas : ℕ → ℝ) (t : ℕ) : ℝ :=
  Real.sqrt (alphas_cumprod betas t)

/-- `self.sqrt_one_minus_alphas_cumprod = np.sqrt(1.0 - self.alphas_cumprod)`. -/
def sqrt_one_minus_alphas_cumprod (betas : ℕ → ℝ) (t : ℕ) : ℝ :=
  Real.sqrt (1 - alphas_cumprod betas t)

/-- `self.sqrt_recip_alphas_cumprod = np.sqrt(1.0 / self.alphas_cumprod)`. -/
def sqrt_recip_alphas_cumprod (betas : ℕ → ℝ) (t : ℕ) : ℝ :=
  Real.sqrt (1 / alphas_cumprod betas t)

/-- `self.sqrt_recipm1_alphas_cumprod = np.sqrt(1.0 / self.alphas_cumprod - 1)`. -/
def sqrt_recipm1_alphas_cumprod (betas : ℕ → ℝ) (t : ℕ) : ℝ :=
  Real.sqrt (1 / alphas_cumprod betas t - 1)

/-- `self.posterior_variance = betas * (1 - alphas_cumprod_prev) / (1 - alphas_cumprod)`. -/
def posterior_variance (betas : ℕ → ℝ) (t : ℕ) : ℝ :=
  betas t * (1 - alphas_cumprod_prev betas t) / (1 - alphas_cumprod betas t)

/-- `self.posterior_log_variance_clipped = np.log(np.append(posterior_variance[1], posterior_variance[1:]))`:
index 0 reuses the value at index 1. -/
def posterior_log_variance_clipped (betas : ℕ → ℝ) (t : ℕ) : ℝ :=
  Real.log (posterior_variance betas (if t = 0 then 1 else t))

/-- `self.posterior_mean_coef1 = betas * np.sqrt(alphas_cumprod_prev) / (1 - alphas_cumprod)`. -/
def posterior_mean_coef1 (betas : ℕ → ℝ) (t : ℕ) : ℝ :=
  betas t * Real.sqrt (alphas_cumprod_prev betas t) / (1 - alphas_cumprod betas t)

/-- `self.posterior_mean_coef2 = (1 - alphas_cumprod_prev) * np.sqrt(alphas) / (1 - alphas_cumprod)`. -/
def posterior_mean_coef2 (betas : ℕ → ℝ) (t : ℕ) : ℝ :=
  (1 - alphas_cumprod_prev betas t) * Real.sqrt (1 - betas t) /
    (1 - alphas_cumprod betas t)

/-- `self.log_betas = np.log(self.betas)`. -/
def log_betas (betas : ℕ → ℝ) (t : ℕ) : ℝ :=
  Real.log (betas t)

/-- The FIXED_LARGE variance table `np.append(posterior_variance[1], betas[1:])`. -/
def fixed_large_variance (betas : ℕ → ℝ) (t : ℕ) : ℝ :=
  if t = 0 then posterior_variance betas 1 else betas t

/-- A torch tensor of shape `[B, C, *spatial]`, modelled by its shape and a
total indexing function (batch, channel, spatial multi-index). -/
@[ext]
structure Tensor where
  B : ℕ
  C : ℕ
  spatial : List ℕ
  data : ℕ → ℕ → List ℕ → ℝ

/-- Shape equality of two tensors, as compared by the `assert ... .shape ==`
statements in the source. -/
def Tensor.sameShape (a b : Tensor) : Prop :=
  a.B = b.B ∧ a.C = b.C ∧ a.spatial = b.spatial

instance (a b : Tensor) : Decidable (a.sameShape b) := by
  unfold Tensor.sameShape; infer_instance

/-- The engine state relevant to the mathematical pipeline: the schedule and
the enum configuration (`GaussianDiffusion.__init__` arguments; the derived
arrays are recomputed from `betas` by the table functions above, matching the
constructor, and the lazily materialized device cache is modelled separately
by `TensorizeState`). -/
structure GaussianDiffusion where
  betas : ℕ → ℝ
  num_timesteps : ℕ
  model_mean_type : ModelMeanType
  model_var_type : ModelVarType
  loss_type : LossType
  rescale_timesteps : Bool

/-- The constructor assertion `(betas > 0).all() and (betas <= 1).all()`
together with `num_timesteps = len(betas)`. -/
def GaussianDiffusion.validBetas (gd : GaussianDiffusion) : Prop :=
  ∀ i < gd.num_timesteps, 0 < gd.betas i ∧ gd.betas i ≤ 1

/-- `_scale_timesteps`: multiply by `1000 / num_timesteps` when
`rescale_timesteps` is set (the result is float-valued either way). -/
def GaussianDiffusion._scale_timesteps (gd : GaussianDiffusion) (t : ℕ → ℕ) :
    ℕ → ℝ :=
  fun b =>
    if gd.rescale_timesteps then (t b : ℝ) * (1000 / (gd.num_timesteps : ℝ))
    else (t b : ℝ)

/-- The value content of `_extract_into_tensor(arr, timesteps, broadcast_shape)`
in the materialized steady state: gather `arr` at each batch element's
timestep and broadcast over the remaining dimensions.  (The device-cache
state machine wrapped around this gather is modelled by
`stateful_extract_into_tensor` below.) -/
def extract_into_tensor (arr : ℕ → ℝ) (timesteps : ℕ → ℕ) (B C : ℕ)
    (spatial : List ℕ) : Tensor :=
  ⟨B, C, spatial, fun b _ _ => arr (timesteps b)⟩

/-- `GaussianDiffusion.q_sample(x_start, t, noise)` with explicit noise. -/
def GaussianDiffusion.q_sample (gd : GaussianDiffusion) (x_start : Tensor)
    (t : ℕ → ℕ) (noise : Tensor) : Except String Tensor :=
  if noise.sameShape x_start then
    .ok ⟨x_start.B, x_start.C, x_start.spatial, fun b c s =>
      sqrt_alphas_cumprod gd.betas (t b) * x_start.data b c s +
        sqrt_one_minus_alphas_cumprod gd.betas (t b) * noise.data b c s⟩
  else .error "assert noise.shape == x_start.shape"

/-- `GaussianDiffusion.q_posterior_mean_variance(x_start, x_t, t)`. -/
def GaussianDiffusion.q_posterior_mean_variance (gd : GaussianDiffusion)
    (x_start x_t : Tensor) (t : ℕ → ℕ) :
    Except String (Tensor × Tensor × Tensor) :=
  if x_start.sameShape x_t then
    .ok (⟨x_t.B, x_t.C, x_t.spatial, fun b c s =>
        posterior_mean_coef1 gd.betas (t b) * x_start.data b c s +
          posterior_mean_coef2 gd.betas (t b) * x_t.data b c s⟩,
      extract_into_tensor (posterior_variance gd.betas) t x_t.B x_t.C x_t.spatial,
      extract_into_tensor (posterior_log_variance_clipped gd.betas) t x_t.B
        x_t.C x_t.spatial)
  else .error "assert x_start.shape == x_t.shape"

/-- `GaussianDiffusion._predict_xstart_from_eps(x_t, t, eps)`. -/
def GaussianDiffusion._predict_xstart_from_eps (gd : GaussianDiffusion)
    (x_t : Tensor) (t : ℕ → ℕ) (eps : Tensor) : Except String Tensor :=
  if x_t.sameShape eps then
    .ok ⟨x_t.B, x_t.C, x_t.spatial, fun b c s =>
      sqrt_recip_alphas_cumprod gd.betas (t b) * x_t.data b c s -
        sqrt_recipm1_alphas_cumprod gd.betas (t b) * eps.data b c s⟩
  else .error "assert x_t.shape == eps.shape"

/-- `GaussianDiffusion._predict_xstart_from_xprev(x_t, t, xprev)`. -/
def GaussianDiffusion._predict_xstart_from_xprev (gd : GaussianDiffusion)
    (x_t : Tensor) (t : ℕ → ℕ) (xprev : Tensor) : Except String Tensor :=
  if x_t.sameShape xprev then
    .ok ⟨x_t.B, x_t.C, x_t.spatial, fun b c s =>
      (1 / posterior_mean_coef1 gd.betas (t b)) * xprev.data b c s -
        (posterior_mean_coef2 gd.betas (t b) / posterior_mean_coef1 gd.betas (t b)) *
          x_t.data b c s⟩
  else .error "assert x_t.shape == xprev.shape"

/-- `GaussianDiffusion._predict_eps_from_xstart(x_t, t, pred_xstart)`
(no shape assertion in the source). -/
def GaussianDiffusion._predict_eps_from_xstart (gd : GaussianDiffusion)
    (x_t : Tensor) (t : ℕ → ℕ) (pred_xstart : Tensor) : Tensor :=
  ⟨x_t.B, x_t.C, x_t.spatial, fun b c s =>
    (sqrt_recip_alphas_cumprod gd.betas (t b) * x_t.data b c s -
      pred_xstart.data b c s) / sqrt_recipm1_alphas_cumprod gd.betas (t b)⟩

/-- The keyword-argument dictionary consumed by `p_mean_variance`.  The
guidance-control keys are explicit optional fields (`none` models an absent
key); `cond` is the remaining context forwarded to the conditional model
call (`model_kwargs_cond` after dropping the guidance keys), of an abstract
type `MK`. -/
structure ModelKwargs (MK : Type) where
  cond : MK
  guidance_scale : Option ℝ := none
  guidance_after_step : Option ℝ := none
  unconditional_model_kwargs : Option MK := none
  unconditional_drop_model_kwargs : Option MK := none
  txt_guidance_drop_ixs : Option (Finset ℕ) := none
  txt_guidance_pdrop : Option ℝ := none

/-- `th.where(t < guidance_after_step, float(guidance_scale), 0.)` at batch
index `b` (absent keys default to `0` and `100000.`). -/
def effective_guidance_scale {MK : Type} (kwargs : ModelKwargs MK)
    (t : ℕ → ℕ) (b : ℕ) : ℝ :=
  if (t b : ℝ) < kwargs.guidance_after_step.getD 100000 then
    kwargs.guidance_scale.getD 0
  else 0

/-- `can_skip = (effective_guidance_scale <= 0).all()` over the batch. -/
def can_skip {MK : Type} (kwargs : ModelKwargs MK) (t : ℕ → ℕ) (B : ℕ) :
    Prop :=
  ∀ b < B, effective_guidance_scale kwargs t b ≤ 0

instance {MK : Type} (kwargs : ModelKwargs MK) (t : ℕ → ℕ) (B : ℕ) :
    Decidable (can_skip kwargs t B) := by
  unfold can_skip; infer_instance

/-- The unconditional-context selection of `p_mean_variance` lines 322-326:
the "drop" variant is used when `txt_guidance_drop_ixs` is present and
intersects the set of timesteps in the batch. -/
def selected_uncond_kwargs {MK : Type} (kwargs : ModelKwargs MK)
    (t : ℕ → ℕ) (B : ℕ) : Option MK :=
  match kwargs.txt_guidance_drop_ixs with
  | some ixs =>
    if ∃ b < B, t b ∈ ixs then kwargs.unconditional_drop_model_kwargs
    else kwargs.unconditional_model_kwargs
  | none => kwargs.unconditional_model_kwargs

/-- The dict returned by `p_mean_variance` (keys `mean`, `variance`,
`log_variance`, `pred_xstart`, `model_var_values`). -/
structure PMeanVarOut where
  mean : Tensor
  variance : Tensor
  log_variance : Tensor
  pred_xstart : Tensor
  model_var_values : Tensor

/-- The `process_xstart` closure of `p_mean_variance`: apply `denoised_fn`
if given, then clamp to `[-1, 1]` if `clip_denoised`. -/
def process_xstart (clip_denoised : Bool)
    (denoised_fn : Option (Tensor → Tensor)) (xx : Tensor) : Tensor :=
  let xx := match denoised_fn with | some f => f xx | none => xx
  if clip_denoised then
    ⟨xx.B, xx.C, xx.spatial, fun b c s => max (-1) (min 1 (xx.data b c s))⟩
  else xx

/-- The final part of `p_mean_variance` (lines 421-430): the shape assertion
followed by construction of the returned dict.  `model_var_values` is a
local variable of the Python function that is only assigned in the
LEARNED/LEARNED_RANGE branch; it is therefore passed here as an `Option`,
and the `none` case reproduces the `UnboundLocalError` raised when the
return dict reads it unassigned. -/
def pmvAssertAndReturn (x model_mean model_variance model_log_variance
    pred_xstart : Tensor) (model_var_values : Option Tensor) :
    Except String PMeanVarOut :=
  if model_mean.sameShape x ∧ model_log_variance.sameShape x ∧
      pred_xstart.sameShape x then
    match model_var_values with
    | some v =>
      .ok ⟨model_mean, model_variance, model_log_variance, pred_xstart, v⟩
    | none =>
      .error "UnboundLocalError: local variable model_var_values referenced before assignment"
  else
    .error "assert model_mean.shape == model_log_variance.shape == pred_xstart.shape == x.shape"

/-- The mean-extraction branch of `p_mean_variance` (lines 386-430),
dispatching on `model_mean_type`, followed by `pmvAssertAndReturn`. -/
def GaussianDiffusion.pmvMeanStep (gd : GaussianDiffusion) (x : Tensor)
    (t : ℕ → ℕ) (clip_denoised : Bool)
    (denoised_fn : Option (Tensor → Tensor))
    (model_output model_variance model_log_variance : Tensor)
    (model_var_values : Option Tensor) : Except String PMeanVarOut :=
  match gd.model_mean_type with
  | .PREVIOUS_X => do
    let px ← gd._predict_xstart_from_xprev x t model_output
    let pred_xstart := process_xstart clip_denoised denoised_fn px
    pmvAssertAndReturn x model_output model_variance model_log_variance
      pred_xstart model_var_values
  | .START_X => do
    let pred_xstart := process_xstart clip_denoised denoised_fn model_output
    let pmv ← gd.q_posterior_mean_variance pred_xstart x t
    pmvAssertAndReturn x pmv.1 model_variance model_log_variance pred_xstart
      model_var_values
  | .EPSILON => do
    let e ← gd._predict_xstart_from_eps x t model_output
    let pred_xstart := process_xstart clip_denoised denoised_fn e
    let pmv ← gd.q_posterior_mean_variance pred_xstart x t
    pmvAssertAndReturn x pmv.1 model_variance model_log_variance pred_xstart
      model_var_values

/-- The unconditional model evaluation of `p_mean_variance` (lines 342-344):
`is_guided` requires a non-None unconditional context, the EPSILON mean
parameterization and `not can_skip`; when it holds the unconditional model
pass is performed, otherwise there is none.  (`guidance_scale is not None`
always holds in this model because an absent key defaults to 0.) -/
def uncond_model_output {MK : Type} (gd : GaussianDiffusion)
    (model : Tensor → (ℕ → ℝ) → MK → Tensor) (x : Tensor) (t : ℕ → ℕ)
    (kwargs : ModelKwargs MK) : Option Tensor :=
  match selected_uncond_kwargs kwargs t x.B with
  | none => none
  | some u =>
    if gd.model_mean_type = ModelMeanType.EPSILON ∧ ¬can_skip kwargs t x.B then
      some (model x (gd._scale_timesteps t) u)
    else none

/-- `GaussianDiffusion.p_mean_variance(model, x, t, clip_denoised,
denoised_fn, model_kwargs)`.  The model is a function of the noisy sample,
the (optionally rescaled) timestep batch and a keyword context of abstract
type `MK`. -/
def GaussianDiffusion.p_mean_variance {MK : Type} (gd : GaussianDiffusion)
    (model : Tensor → (ℕ → ℝ) → MK → Tensor) (x : Tensor) (t : ℕ → ℕ)
    (clip_denoised : Bool) (denoised_fn : Option (Tensor → Tensor))
    (kwargs : ModelKwargs MK) : Except String PMeanVarOut :=
  let B := x.B
  let C := x.C
  let uncond_output : Option Tensor := uncond_model_output gd model x t kwargs
  let cond_output : Tensor := model x (gd._scale_timesteps t) kwargs.cond
  -- guided blend `(1 + scale) * cond - scale * uncond`, `scale` broadcast
  -- per batch element
  let model_output : Tensor :=
    match uncond_output with
    | none => cond_output
    | some u =>
      ⟨cond_output.B, cond_output.C, cond_output.spatial, fun b c s =>
        (1 + effective_guidance_scale kwargs t b) * cond_output.data b c s -
          effective_guidance_scale kwargs t b * u.data b c s⟩
  if gd.model_var_type = ModelVarType.LEARNED ∨
      gd.model_var_type = ModelVarType.LEARNED_RANGE then
    if model_output.B = B ∧ model_output.C = C * 2 ∧
        model_output.spatial = x.spatial then
      -- `model_output, model_var_values = th.split(model_output, C, dim=1)`;
      -- when guided, the variance channels are re-taken from the
      -- unconditional pass instead.
      let mo : Tensor :=
        ⟨model_output.B, C, model_output.spatial, fun b c s =>
          model_output.data b c s⟩
      let mvv : Tensor :=
        match uncond_output with
        | some u => ⟨u.B, u.C - C, u.spatial, fun b c s => u.data b (C + c) s⟩
        | none =>
          ⟨model_output.B, model_output.C - C, model_output.spatial,
            fun b c s => model_output.data b (C + c) s⟩
      if gd.model_var_type = ModelVarType.LEARNED then
        let model_log_variance := mvv
        let model_variance : Tensor :=
          ⟨mvv.B, mvv.C, mvv.spatial, fun b c s => Real.exp (mvv.data b c s)⟩
        gd.pmvMeanStep x t clip_denoised denoised_fn mo model_variance
          model_log_variance (some mvv)
      else
        -- LEARNED_RANGE: `frac = (model_var_values + 1) / 2`,
        -- `model_log_variance = frac * max_log + (1 - frac) * min_log`
        let model_log_variance : Tensor :=
          ⟨mvv.B, mvv.C, mvv.spatial, fun b c s =>
            ((mvv.data b c s + 1) / 2) * log_betas gd.betas (t b) +
              (1 - (mvv.data b c s + 1) / 2) *
                posterior_log_variance_clipped gd.betas (t b)⟩
        let model_variance : Tensor :=
          ⟨mvv.B, mvv.C, mvv.spatial, fun b c s =>
            Real.exp (model_log_variance.data b c s)⟩
        gd.pmvMeanStep x t clip_denoised denoised_fn mo model_variance
          model_log_variance (some mvv)
    else .error "assert model_output.shape == (B, C * 2, *x.shape[2:])"
  else
    -- fixed-variance dict lookup; `model_var_values` stays unassigned here
    if gd.model_var_type = ModelVarType.FIXED_LARGE then
      gd.pmvMeanStep x t clip_denoised denoised_fn model_output
        (extract_into_tensor (fixed_large_variance gd.betas) t B C x.spatial)
        (extract_into_tensor (fun i => Real.log (fixed_large_variance gd.betas i))
          t B C x.spatial)
        none
    else
      gd.pmvMeanStep x t clip_denoised denoised_fn model_output
        (extract_into_tensor (posterior_variance gd.betas) t B C x.spatial)
        (extract_into_tensor (posterior_log_variance_clipped gd.betas) t B C
          x.spatial)
        none

/-- The dict returned by `p_sample` (keys `sample`, `pred_xstart`). -/
structure PSampleOut where
  sample : Tensor
  pred_xstart : Tensor

/-- `GaussianDiffusion.p_sample(model, x, t, ...)` with explicit noise:
`sample = mean + (t != 0) * exp(0.5 * log_variance) * noise`. -/
def GaussianDiffusion.p_sample {MK : Type} (gd : GaussianDiffusion)
    (model : Tensor → (ℕ → ℝ) → MK → Tensor) (x : Tensor) (t : ℕ → ℕ)
    (noise : Tensor) (clip_denoised : Bool)
    (denoised_fn : Option (Tensor → Tensor)) (kwargs : ModelKwargs MK) :
    Except String PSampleOut := do
  let out ← gd.p_mean_variance model x t clip_denoised denoised_fn kwargs
  .ok ⟨⟨x.B, x.C, x.spatial, fun b c s =>
      out.mean.data b c s +
        (if t b ≠ 0 then (1 : ℝ) else 0) *
          Real.exp (0.5 * out.log_variance.data b c s) * noise.data b c s⟩,
    out.pred_xstart⟩

/-- The device-materialization state of the parameter table: `tensorized_for`
is the `self.tensorized_for` attribute; `arrays_on` records whether the
table attributes are still numpy arrays (`none`) or torch tensors resident
on a device (`some d`).  `tensorize` converts exactly the attributes that
are still numpy arrays (`isinstance(..., np.ndarray)`). -/
structure TensorizeState where
  tensorized_for : Option ℕ
  arrays_on : Option ℕ
deriving DecidableEq, Repr

/-- `GaussianDiffusion.is_tensorized(device)`. -/
def TensorizeState.is_tensorized (s : TensorizeState) (device : ℕ) : Bool :=
  s.tensorized_for = some device

/-- `GaussianDiffusion.tensorize(device)`: converts the attributes that are
numpy arrays to device tensors and records the device. -/
def TensorizeState.tensorize (s : TensorizeState) (device : ℕ) :
    TensorizeState :=
  { tensorized_for := some device,
    arrays_on := match s.arrays_on with | none => some device | some d => some d }

/-- `GaussianDiffusion._extract_into_tensor` as a state machine over the
device cache (lines 1327-1350), generic in the element type: if
`is_tensorized(timesteps.device)` the lookup is a pure gather; otherwise the
code evaluates `th.from_numpy(arr)`, which succeeds (and then tensorizes the
whole table) only while the attributes are still numpy arrays, and raises a
`TypeError` once they have already been converted to torch tensors. -/
def stateful_extract_into_tensor {α : Type} (s : TensorizeState)
    (arr : ℕ → α) (timesteps : ℕ → ℕ) (device : ℕ) :
    Except String ((ℕ → α) × TensorizeState) :=
  if s.is_tensorized device then
    .ok (fun b => arr (timesteps b), s)
  else
    match s.arrays_on with
    | none => .ok (fun b => arr (timesteps b), s.tensorize device)
    | some _ => .error "TypeError: expected np.ndarray (got Tensor)"

/-- The `ddim_fallback` guard expression of `plms_sample_loop_progressive`
(lines 935 and 954): `(step_counter < ddim_first_n) or (ddim_last_n is not
None and (nsteps - step_counter) < ddim_last_n)`.  Python short-circuits:
the name `nsteps` is only reached when the first disjunct is false and
`ddim_last_n` is not `None` - and `nsteps` is not defined anywhere in that
scope, so reaching it raises a `NameError`. -/
def plms_ddim_fallback_guard (ddim_first_n : ℕ) (ddim_last_n : Option ℕ)
    (step_counter : ℕ) : Except String Bool :=
  if step_counter < ddim_first_n then .ok true
  else
    match ddim_last_n with
    | none => .ok false
    | some _ => .error "NameError: name nsteps is not defined"

/-- The sequence of `ddim_fallback` guard evaluations performed by
`plms_sample_loop_progressive`: 3 Runge-Kutta bootstrap steps over
`rk_indices = [T-1, T-3, T-5]` followed by the steps over
`plms_indices = list(range(1, T-6))[::-1]`, with `step_counter` incremented
once per step.  The first `NameError` aborts the loop, mirroring the Python
exception propagating out of the generator. -/
def plms_sample_loop_guard_trace (num_timesteps ddim_first_n : ℕ)
    (ddim_last_n : Option ℕ) : Except String (List Bool) :=
  (List.range (3 + (num_timesteps - 7))).mapM
    (plms_ddim_fallback_guard ddim_first_n ddim_last_n)

end

/-- `SimpleForwardDiffusion.__init__` keeps only the betas (its derived
arrays are recomputed by the functions in this namespace, matching lines
1353-1371). -/
structure SimpleForwardDiffusion where
  betas : ℕ → ℝ

namespace SimpleForwardDiffusion

noncomputable section

/-- `self.alphas_cumprod = np.cumprod(alphas, axis=0)` (line 1366). -/
def alphas_cumprod (betas : ℕ → ℝ) (t : ℕ) : ℝ :=
  ∏ i ∈ Finset.range (t + 1), (1 - betas i)

/-- `self.sqrt_alphas_cumprod = np.sqrt(self.alphas_cumprod)` (line 1369). -/
def sqrt_alphas_cumprod (betas : ℕ → ℝ) (t : ℕ) : ℝ :=
  Real.sqrt (alphas_cumprod betas t)

/-- `self.sqrt_one_minus_alphas_cumprod = np.sqrt(1.0 - self.alphas_cumprod)`
(line 1370). -/
def sqrt_one_minus_alphas_cumprod (betas : ℕ → ℝ) (t : ℕ) : ℝ :=
  Real.sqrt (1 - alphas_cumprod betas t)

/-- `SimpleForwardDiffusion.q_sample(x_start, t, noise)` (lines 1390-1408). -/
def q_sample (sd : SimpleForwardDiffusion) (x_start : Tensor) (t : ℕ → ℕ)
    (noise : Tensor) : Except String Tensor :=
  if noise.sameShape x_start then
    .ok ⟨x_start.B, x_start.C, x_start.spatial, fun b c s =>
      sqrt_alphas_cumprod sd.betas (t b) * x_start.data b c s +
        sqrt_one_minus_alphas_cumprod sd.betas (t b) * noise.data b c s⟩
  else .error "assert noise.shape == x_start.shape"

end

end SimpleForwardDiffusion

noncomputable section

/-- Strip the unconditional contexts from a kwargs dict: the context a
purely conditional call would receive. -/
def ModelKwargs.stripUncond {MK : Type} (kwargs : ModelKwargs MK) :
    ModelKwargs MK :=
  { kwargs with
    unconditional_model_kwargs := none
    unconditional_drop_model_kwargs := none }

/-- A `[1, 1]` tensor with all entries `v` (concrete test fixture). -/
def constTensor (v : ℝ) : Tensor := ⟨1, 1, [], fun _ _ _ => v⟩

/-- The all-zero timestep batch. -/
def tZero : ℕ → ℕ := fun _ => 0

/-- A kwargs dict carrying no guidance keys. -/
def kwUnit : ModelKwargs Unit := { cond := () }

/-- A model returning its input unchanged (fixed-variance shape contract). -/
def idModel : Tensor → (ℕ → ℝ) → Unit → Tensor := fun xx _ _ => xx

/-- A model returning a doubled-channel zero tensor (learned-variance shape
contract). -/
def twoChanZeroModel : Tensor → (ℕ → ℝ) → Unit → Tensor :=
  fun xx _ _ => ⟨xx.B, xx.C * 2, xx.spatial, fun _ _ _ => 0⟩

/-- A one-step engine with `beta = [1/2]` and FIXED_SMALL variance. -/
def gdFixedSmall : GaussianDiffusion :=
  ⟨fun _ => 1 / 2, 1, .START_X, .FIXED_SMALL, .MSE, false⟩

/-- A one-step engine with `beta = [1/2]` and FIXED_LARGE variance. -/
def gdFixedLarge : GaussianDiffusion :=
  ⟨fun _ => 1 / 2, 1, .START_X, .FIXED_LARGE, .MSE, false⟩

/-- A one-step engine with `beta = [1/2]` and LEARNED variance. -/
def gdLearned : GaussianDiffusion :=
  ⟨fun _ => 1 / 2, 1, .START_X, .LEARNED, .MSE, false⟩

/-- A two-step engine with constant `beta = 1/2` and EPSILON mean type. -/
def gdHalf : GaussianDiffusion :=
  ⟨fun _ => 1 / 2, 2, .EPSILON, .LEARNED, .MSE, false⟩

/-- A betas array with `betas[0] = 1` (accepted by the constructor asserts)
and `betas[1] = 1/2`. -/
def cexBetas : ℕ → ℝ := fun i => if i = 0 then 1 else 1 / 2

/-- An engine over `cexBetas`. -/
def gdCex : GaussianDiffusion := ⟨cexBetas, 2, .EPSILON, .FIXED_SMALL, .MSE, false⟩

end

/-- Claim C1: for every ModelVarType and implemented mean parameterization,
`p_mean_variance` returns the output dict and does not fail when shapes are
consistent.  The code contradicts this (and its own docstring contract):
with FIXED_SMALL or FIXED_LARGE variance the local `model_var_values` is
never assigned, yet the return dict reads it, raising `UnboundLocalError`
on perfectly shape-consistent inputs. -/
theorem claim_C1 :
    gdFixedSmall.p_mean_variance idModel (constTensor 0) tZero true none kwUnit =
      Except.error "UnboundLocalError: local variable model_var_values referenced before assignment" ∧
    gdFixedLarge.p_mean_variance idModel (constTensor 0) tZero true none kwUnit =
      Except.error "UnboundLocalError: local variable model_var_values referenced before assignment" :=
  ⟨rfl, rfl⟩

/-- Claim C9: `LossType.is_mse` is claimed to return True exactly on the
MSE-family variants and False on KL and RESCALED_KL; the code instead
evaluates a bare enum member in the `or`-chain, so `is_mse` is truthy for
every variant, including KL and RESCALED_KL.  (`is_mse_spec`, the explicit
list from the spec, gives the documented answer.) -/
theorem claim_C9 :
    LossType.is_mse LossType.KL = true ∧
    LossType.is_mse LossType.RESCALED_KL = true ∧
    LossType.is_mse_spec LossType.KL = false ∧
    LossType.is_mse_spec LossType.RESCALED_KL = false ∧
    ∀ l : LossType, LossType.is_mse l = true := by
  refine ⟨rfl, rfl, rfl, rfl, ?_⟩
  intro l
  cases l <;> rfl

/-- Claim C8: with a non-None `ddim_last_n`, `plms_sample_loop_progressive`
is claimed to force single-step DDIM for the trailing steps and yield a
complete trajectory without error.  The guard references the undefined name
`nsteps`, so the very first guard evaluation raises a `NameError`; with
`ddim_last_n = None` the same loop completes (second conjunct, `T = 16`,
3 bootstrap steps plus 9 multistep steps). -/
theorem claim_C8 :
    plms_sample_loop_guard_trace 16 0 (some 1) =
      Except.error "NameError: name nsteps is not defined" ∧
    plms_sample_loop_guard_trace 16 0 none =
      Except.ok (List.replicate 12 false) := by
  constructor <;> rfl

/-- Claim C3 counterexample: after a first materialization on device `0`,
a request with a different device `1` does not rebuild the device-resident
copies; `th.from_numpy` is applied to an attribute that is already a torch
tensor and raises a `TypeError`. -/
theorem claim_C3_counterexample :
    (stateful_extract_into_tensor (TensorizeState.mk none none)
        (fun i => i) (fun _ => 0) 0).map Prod.snd =
      Except.ok (TensorizeState.mk (some 0) (some 0)) ∧
    stateful_extract_into_tensor (TensorizeState.mk (some 0) (some 0))
        (fun i => i) (fun _ => 0) 1 =
      Except.error "TypeError: expected np.ndarray (got Tensor)" := by
  constructor <;> rfl

/-- Claim C3 (amended): once the table is materialized for a device, a
repeated extract with the same device is a pure gather that leaves the
state unchanged and returns the table values; a request with a *different*
device does not rebuild but fails with a `TypeError`, because the stored
attributes are no longer numpy arrays. -/
theorem claim_C3 {α : Type} (s : TensorizeState) (arr : ℕ → α)
    (timesteps : ℕ → ℕ) (d : ℕ) (hd : s.tensorized_for = some d) (e : ℕ)
    (he : s.arrays_on = some e) :
    stateful_extract_into_tensor s arr timesteps d =
      Except.ok (fun b => arr (timesteps b), s) ∧
    ∀ d2, d2 ≠ d →
      stateful_extract_into_tensor s arr timesteps d2 =
        Except.error "TypeError: expected np.ndarray (got Tensor)" := by
  constructor
  · unfold stateful_extract_into_tensor TensorizeState.is_tensorized
    rw [hd]
    simp
  · intro d2 hne
    unfold stateful_extract_into_tensor TensorizeState.is_tensorized
    rw [hd, he]
    simp [Ne.symm hne]

/-- Witness for claim C3 at a concrete materialized state. -/
theorem claim_C3_witness :
    (TensorizeState.mk (some 0) (some 0)).tensorized_for = some 0 ∧
    (TensorizeState.mk (some 0) (some 0)).arrays_on = some 0 ∧
    (stateful_extract_into_tensor (TensorizeState.mk (some 0) (some 0))
        (fun i => i + 7) (fun _ => 3) 0 =
      Except.ok (fun b => (fun _ => 3 : ℕ → ℕ) b + 7,
        TensorizeState.mk (some 0) (some 0)) ∧
    ∀ d2, d2 ≠ 0 →
      stateful_extract_into_tensor (TensorizeState.mk (some 0) (some 0))
          (fun i => i + 7) (fun _ => 3) d2 =
        Except.error "TypeError: expected np.ndarray (got Tensor)") :=
  ⟨rfl, rfl, claim_C3 (TensorizeState.mk (some 0) (some 0)) (fun i => i + 7)
    (fun _ => 3) 0 rfl 0 rfl⟩

lemma alphas_cumprod_zero (betas : ℕ → ℝ) :
    alphas_cumprod betas 0 = 1 - betas 0 := by
  simp [alphas_cumprod]

lemma alphas_cumprod_succ (betas : ℕ → ℝ) (n : ℕ) :
    alphas_cumprod betas (n + 1) =
      alphas_cumprod betas n * (1 - betas (n + 1)) := by
  unfold alphas_cumprod
  exact Finset.prod_range_succ _ _

/-- If every beta up to `t` lies in `(0,1)`, the cumulative alpha product at
`t` lies in `(0,1)`. -/
lemma alphas_cumprod_pos_lt_one (betas : ℕ → ℝ) (t : ℕ)
    (h : ∀ i ≤ t, 0 < betas i ∧ betas i < 1) :
    0 < alphas_cumprod betas t ∧ alphas_cumprod betas t < 1 := by
  induction t with
  | zero =>
    have h0 := h 0 le_rfl
    rw [alphas_cumprod_zero]
    constructor <;> linarith [h0.1, h0.2]
  | succ n ih =>
    have hs := h (n + 1) le_rfl
    have ihn := ih fun i hi => h i (hi.trans (Nat.le_succ n))
    rw [alphas_cumprod_succ]
    constructor
    · exact mul_pos ihn.1 (by linarith [hs.2])
    · nlinarith [ihn.1, ihn.2, hs.1, hs.2]

/-- If every beta below `T` lies in `(0,1)`, the cumulative alpha products
are strictly decreasing below `T`. -/
lemma alphas_cumprod_strict_anti (betas : ℕ → ℝ) (T : ℕ)
    (h : ∀ i < T, 0 < betas i ∧ betas i < 1) :
    ∀ i j, i < j → j < T →
      alphas_cumprod betas j < alphas_cumprod betas i := by
  have hstep : ∀ j, j + 1 < T →
      alphas_cumprod betas (j + 1) < alphas_cumprod betas j := by
    intro j hj
    have hpos : 0 < alphas_cumprod betas j :=
      (alphas_cumprod_pos_lt_one betas j fun i hi => h i (by omega)).1
    have hb := h (j + 1) hj
    rw [alphas_cumprod_succ]
    nlinarith [hb.1, hb.2]
  intro i j hij hjT
  induction j with
  | zero => omega
  | succ n ih =>
    rcases Nat.lt_succ_iff_lt_or_eq.mp hij with h' | h'
    · exact lt_trans (hstep n hjT) (ih h' (by omega))
    · subst h'
      exact hstep i hjT

/-- Claim C4 counterexample: with `betas = [1, 1/2]` (accepted by the
constructor, all betas in `(0,1]`) and `t = 1`, the claim's hypothesis
holds (`betas[1] = 1/2 > 0` and `1 - alphas_cumprod[1] = 1` is nonzero),
yet the round trip does not recover `eps`: `alphas_cumprod[1] = 0`, so both
`sqrt(1/alphas_cumprod)` coefficients are degenerate (infinite in the
float implementation, producing NaN; zero under the real model's
division-by-zero convention) and the recovered value is `0`, not the
original `eps = 1`. -/
theorem claim_C4_counterexample :
    (0 < cexBetas 1 ∧ 1 - alphas_cumprod cexBetas 1 ≠ 0) ∧
    ∃ y, gdCex._predict_xstart_from_eps (constTensor 5) (fun _ => 1)
        (constTensor 1) = Except.ok y ∧
      (gdCex._predict_eps_from_xstart (constTensor 5) (fun _ => 1) y).data 0 0 [] = 0 ∧
      (constTensor 1).data 0 0 [] = 1 := by
  have hacp : alphas_cumprod cexBetas 1 = 0 := by
    rw [alphas_cumprod_succ, alphas_cumprod_zero]
    unfold cexBetas
    norm_num
  have h1 : sqrt_recip_alphas_cumprod cexBetas 1 = 0 := by
    unfold sqrt_recip_alphas_cumprod
    rw [hacp, div_zero, Real.sqrt_zero]
  have h2 : sqrt_recipm1_alphas_cumprod cexBetas 1 = 0 := by
    unfold sqrt_recipm1_alphas_cumprod
    rw [hacp, div_zero]
    exact Real.sqrt_eq_zero'.mpr (by norm_num)
  refine ⟨⟨by norm_num [cexBetas], by rw [hacp]; norm_num⟩,
    ⟨(constTensor 5).B, (constTensor 5).C, (constTensor 5).spatial,
      fun b c s =>
        sqrt_recip_alphas_cumprod gdCex.betas ((fun _ => 1) b) *
            (constTensor 5).data b c s -
          sqrt_recipm1_alphas_cumprod gdCex.betas ((fun _ => 1) b) *
            (constTensor 1).data b c s⟩, ?_, ?_, rfl⟩
  · unfold GaussianDiffusion._predict_xstart_from_eps
    rw [if_pos ⟨rfl, rfl, rfl⟩]
  · show (sqrt_recip_alphas_cumprod cexBetas 1 * (constTensor 5).data 0 0 [] -
        (sqrt_recip_alphas_cumprod cexBetas 1 * (constTensor 5).data 0 0 [] -
          sqrt_recipm1_alphas_cumprod cexBetas 1 * (constTensor 1).data 0 0 [])) /
      sqrt_recipm1_alphas_cumprod cexBetas 1 = 0
    rw [h1, h2]
    norm_num

/-- Claim C4 (amended): for every timestep `t < T` and equal-shaped
tensors, `_predict_eps_from_xstart` after `_predict_xstart_from_eps`
recovers `eps` exactly, provided every beta up to `t` lies in the *open*
interval `(0,1)` (this guarantees `0 < alphas_cumprod[t] < 1`, hence a
nonzero `sqrt(1/alphas_cumprod - 1)`; `betas[t] > 0` alone does not
suffice, see the counterexample). -/
theorem claim_C4 (gd : GaussianDiffusion) (t : ℕ)
    (ht : t < gd.num_timesteps)
    (hβ : ∀ i ≤ t, 0 < gd.betas i ∧ gd.betas i < 1) (x_t eps : Tensor)
    (hsh : x_t.sameShape eps) :
    ∃ y, gd._predict_xstart_from_eps x_t (fun _ => t) eps = Except.ok y ∧
      gd._predict_eps_from_xstart x_t (fun _ => t) y = eps := by
  obtain ⟨hpos, hlt⟩ := alphas_cumprod_pos_lt_one gd.betas t hβ
  have hgt : 1 < 1 / alphas_cumprod gd.betas t := (one_lt_div hpos).mpr hlt
  have hsr : sqrt_recipm1_alphas_cumprod gd.betas t ≠ 0 := by
    unfold sqrt_recipm1_alphas_cumprod
    exact (Real.sqrt_pos.mpr (by linarith)).ne'
  obtain ⟨hB, hC, hsp⟩ := hsh
  refine ⟨⟨x_t.B, x_t.C, x_t.spatial, fun b c s =>
      sqrt_recip_alphas_cumprod gd.betas t * x_t.data b c s -
        sqrt_recipm1_alphas_cumprod gd.betas t * eps.data b c s⟩, ?_, ?_⟩
  · unfold GaussianDiffusion._predict_xstart_from_eps
    rw [if_pos ⟨hB, hC, hsp⟩]
  · unfold GaussianDiffusion._predict_eps_from_xstart
    ext b c s
    · exact hB
    · exact hC
    · rw [hsp]
    · show (sqrt_recip_alphas_cumprod gd.betas t * x_t.data b c s -
          (sqrt_recip_alphas_cumprod gd.betas t * x_t.data b c s -
            sqrt_recipm1_alphas_cumprod gd.betas t * eps.data b c s)) /
        sqrt_recipm1_alphas_cumprod gd.betas t = eps.data b c s
      rw [sub_sub_cancel]
      exact mul_div_cancel_left₀ _ hsr

/-- Witness for claim C4: `betas = 1/2` everywhere, `t = 0`, constant
tensors; the round trip recovers the constant `eps = 3`. -/
theorem claim_C4_witness :
    ∃ y, gdHalf._predict_xstart_from_eps (constTensor 2) (fun _ => 0)
        (constTensor 3) = Except.ok y ∧
      gdHalf._predict_eps_from_xstart (constTensor 2) (fun _ => 0) y =
        constTensor 3 :=
  claim_C4 gdHalf 0 (by norm_num [gdHalf])
    (fun i _ => by constructor <;> norm_num [gdHalf]) (constTensor 2)
    (constTensor 3) ⟨rfl, rfl, rfl⟩

/-- Claim C5: per batch element, the ancestral sample is exactly the
posterior mean when `t = 0` (zero injected noise at the terminal step), and
`mean + exp(0.5 * log_variance) * noise` when `t != 0`. -/
theorem claim_C5 {MK : Type} (gd : GaussianDiffusion)
    (model : Tensor → (ℕ → ℝ) → MK → Tensor) (x : Tensor) (t : ℕ → ℕ)
    (noise : Tensor) (clip_denoised : Bool)
    (denoised_fn : Option (Tensor → Tensor)) (kwargs : ModelKwargs MK)
    (out : PMeanVarOut)
    (h : gd.p_mean_variance model x t clip_denoised denoised_fn kwargs =
      Except.ok out) (b c : ℕ) (s : List ℕ) :
    ∃ ps, gd.p_sample model x t noise clip_denoised denoised_fn kwargs =
        Except.ok ps ∧
      (t b = 0 → ps.sample.data b c s = out.mean.data b c s) ∧
      (t b ≠ 0 → ps.sample.data b c s =
        out.mean.data b c s +
          Real.exp (0.5 * out.log_variance.data b c s) * noise.data b c s) := by
  have hps : gd.p_sample model x t noise clip_denoised denoised_fn kwargs =
      Except.ok ⟨⟨x.B, x.C, x.spatial, fun b c s =>
        out.mean.data b c s +
          (if t b ≠ 0 then (1 : ℝ) else 0) *
            Real.exp (0.5 * out.log_variance.data b c s) * noise.data b c s⟩,
      out.pred_xstart⟩ := by
    unfold GaussianDiffusion.p_sample
    rw [h]
    rfl
  refine ⟨_, hps, ?_, ?_⟩
  · intro h0
    simp [h0]
  · intro hne
    simp [hne]

/-- The concrete LEARNED-variance evaluation succeeds (helper for the C5
witness). -/
lemma pmv_gdLearned_ok :
    ∃ out, gdLearned.p_mean_variance twoChanZeroModel (constTensor 0) tZero
      true none kwUnit = Except.ok out :=
  ⟨_, rfl⟩

/-- Witness for claim C5 at a concrete learned-variance configuration with
`t = 0` everywhere. -/
theorem claim_C5_witness :
    ∃ out, gdLearned.p_mean_variance twoChanZeroModel (constTensor 0) tZero
        true none kwUnit = Except.ok out ∧
      ∃ ps, gdLearned.p_sample twoChanZeroModel (constTensor 0) tZero
          (constTensor 1) true none kwUnit = Except.ok ps ∧
        (tZero 0 = 0 → ps.sample.data 0 0 [] = out.mean.data 0 0 []) ∧
        (tZero 0 ≠ 0 → ps.sample.data 0 0 [] =
          out.mean.data 0 0 [] +
            Real.exp (0.5 * out.log_variance.data 0 0 []) *
              (constTensor 1).data 0 0 []) := by
  obtain ⟨out, hout⟩ := pmv_gdLearned_ok
  exact ⟨out, hout,
    claim_C5 gdLearned twoChanZeroModel (constTensor 0) tZero (constTensor 1)
      true none kwUnit out hout 0 0 []⟩

/-- Claim C2: when the effective per-element guidance scale is zero for
every batch element, `p_mean_variance` returns exactly what it returns with
the unconditional contexts removed: the unconditional model pass never
happens and the combined output is the conditional output. -/
theorem claim_C2 {MK : Type} (gd : GaussianDiffusion)
    (model : Tensor → (ℕ → ℝ) → MK → Tensor) (x : Tensor) (t : ℕ → ℕ)
    (clip_denoised : Bool) (denoised_fn : Option (Tensor → Tensor))
    (kwargs : ModelKwargs MK)
    (h : ∀ b < x.B, effective_guidance_scale kwargs t b = 0) :
    gd.p_mean_variance model x t clip_denoised denoised_fn kwargs =
      gd.p_mean_variance model x t clip_denoised denoised_fn
        kwargs.stripUncond := by
  have hskip : can_skip kwargs t x.B := fun b hb => le_of_eq (h b hb)
  have hstrip : ∀ b, effective_guidance_scale kwargs.stripUncond t b =
      effective_guidance_scale kwargs t b := by
    intro b
    unfold effective_guidance_scale ModelKwargs.stripUncond
    rfl
  have h1 : selected_uncond_kwargs kwargs.stripUncond t x.B = none := by
    unfold selected_uncond_kwargs ModelKwargs.stripUncond
    cases kwargs.txt_guidance_drop_ixs <;> simp
  have h2 : uncond_model_output gd model x t kwargs = none := by
    unfold uncond_model_output
    cases selected_uncond_kwargs kwargs t x.B with
    | none => rfl
    | some u => exact if_neg fun hand => hand.2 hskip
  have h3 : uncond_model_output gd model x t kwargs.stripUncond = none := by
    unfold uncond_model_output
    rw [h1]
  simp only [GaussianDiffusion.p_mean_variance]
  rw [h2, h3]
  rfl

/-- Witness for claim C2 at a concrete guidance-free configuration. -/
theorem claim_C2_witness :
    gdLearned.p_mean_variance twoChanZeroModel (constTensor 0) tZero true
        none kwUnit =
      gdLearned.p_mean_variance twoChanZeroModel (constTensor 0) tZero true
        none kwUnit.stripUncond :=
  claim_C2 gdLearned twoChanZeroModel (constTensor 0) tZero true none kwUnit
    (fun b _ => by simp [effective_guidance_scale, kwUnit])

/-- Claim C10: for every betas array and configuration,
`SimpleForwardDiffusion.q_sample` computes exactly the same function of
`(x_start, t, noise)` as `GaussianDiffusion.q_sample` (including the shape
assertion), and on shape-consistent inputs both equal
`sqrt(alphas_cumprod[t]) * x_start + sqrt(1 - alphas_cumprod[t]) * noise`. -/
theorem claim_C10 (betas : ℕ → ℝ) (T : ℕ) (mt : ModelMeanType)
    (vt : ModelVarType) (lt' : LossType) (rs : Bool)
    (hv : ∀ i < T, 0 < betas i ∧ betas i ≤ 1) (x_start noise : Tensor)
    (t : ℕ → ℕ) :
    GaussianDiffusion.q_sample ⟨betas, T, mt, vt, lt', rs⟩ x_start t noise =
      SimpleForwardDiffusion.q_sample ⟨betas⟩ x_start t noise ∧
    (noise.sameShape x_start →
      GaussianDiffusion.q_sample ⟨betas, T, mt, vt, lt', rs⟩ x_start t noise =
        Except.ok ⟨x_start.B, x_start.C, x_start.spatial, fun b c s =>
          Real.sqrt (alphas_cumprod betas (t b)) * x_start.data b c s +
            Real.sqrt (1 - alphas_cumprod betas (t b)) *
              noise.data b c s⟩) := by
  constructor
  · rfl
  · intro hsh
    unfold GaussianDiffusion.q_sample sqrt_alphas_cumprod
      sqrt_one_minus_alphas_cumprod
    rw [if_pos hsh]

/-- Witness for claim C10 at a concrete schedule and constant tensors. -/
theorem claim_C10_witness :
    GaussianDiffusion.q_sample ⟨fun _ => 1 / 2, 1, .EPSILON, .LEARNED, .MSE,
        false⟩ (constTensor 0) tZero (constTensor 1) =
      SimpleForwardDiffusion.q_sample ⟨fun _ => 1 / 2⟩ (constTensor 0) tZero
        (constTensor 1) ∧
    ((constTensor 1).sameShape (constTensor 0) →
      GaussianDiffusion.q_sample ⟨fun _ => 1 / 2, 1, .EPSILON, .LEARNED,
          .MSE, false⟩ (constTensor 0) tZero (constTensor 1) =
        Except.ok ⟨(constTensor 0).B, (constTensor 0).C,
          (constTensor 0).spatial, fun b c s =>
          Real.sqrt (alphas_cumprod (fun _ => 1 / 2) (tZero b)) *
              (constTensor 0).data b c s +
            Real.sqrt (1 - alphas_cumprod (fun _ => 1 / 2) (tZero b)) *
              (constTensor 1).data b c s⟩) :=
  claim_C10 (fun _ => 1 / 2) 1 .EPSILON .LEARNED .MSE false
    (fun i _ => by norm_num) (constTensor 0) (constTensor 1) tZero

lemma range_map_getD (f : ℕ → ℝ) (n i : ℕ) (hi : i < n) :
    ((List.range n).map f).getD i 0 = f i := by
  rw [List.getD_eq_getElem?_getD, List.getElem?_map, List.getElem?_range hi]
  rfl

lemma linspaceVal_zero (a b : ℝ) (n : ℕ) : linspaceVal a b n 0 = a := by
  unfold linspaceVal
  split <;> simp

lemma linspaceVal_last (a b : ℝ) (n : ℕ) (hn : 2 ≤ n) :
    linspaceVal a b n (n - 1) = b := by
  unfold linspaceVal
  rw [if_neg (by omega), Nat.cast_sub (by omega : 1 ≤ n)]
  have hne : (n : ℝ) - 1 ≠ 0 := by
    have : (2 : ℝ) ≤ (n : ℝ) := by exact_mod_cast hn
    exact ne_of_gt (by linarith)
  field_simp

lemma linspaceVal_step (a b : ℝ) (n i : ℕ) (h : i + 1 < n) :
    linspaceVal a b n (i + 1) - linspaceVal a b n i =
      (b - a) / ((n : ℝ) - 1) := by
  unfold linspaceVal
  rw [if_neg (by omega), if_neg (by omega)]
  push_cast
  ring

lemma linspaceVal_strictMono (a b : ℝ) (n : ℕ) (hab : a < b) (i j : ℕ)
    (hij : i < j) (hj : j < n) :
    linspaceVal a b n i < linspaceVal a b n j := by
  have hn : 2 ≤ n := by omega
  unfold linspaceVal
  rw [if_neg (by omega), if_neg (by omega)]
  have hs : 0 < (b - a) / ((n : ℝ) - 1) := by
    apply div_pos (by linarith)
    have : (2 : ℝ) ≤ (n : ℝ) := by exact_mod_cast hn
    linarith
  have hcast : (i : ℝ) < (j : ℝ) := by exact_mod_cast hij
  nlinarith

lemma gCos_nonneg (u : ℝ) (h0 : 0 ≤ u) :
    0 ≤ (u + 0.008) / 1.008 * (Real.pi / 2) := by
  have h : 0 ≤ (u + 0.008) / 1.008 := div_nonneg (by linarith) (by norm_num)
  have hπ : (0 : ℝ) ≤ Real.pi / 2 := by positivity
  exact mul_nonneg h hπ

lemma gCos_le_pi_div_two (u : ℝ) (h1 : u ≤ 1) :
    (u + 0.008) / 1.008 * (Real.pi / 2) ≤ Real.pi / 2 := by
  have h : (u + 0.008) / 1.008 ≤ 1 := by
    rw [div_le_one (by norm_num)]
    linarith
  have hπ : (0 : ℝ) ≤ Real.pi / 2 := by positivity
  calc (u + 0.008) / 1.008 * (Real.pi / 2) ≤ 1 * (Real.pi / 2) :=
        mul_le_mul_of_nonneg_right h hπ
    _ = Real.pi / 2 := one_mul _

lemma gCos_lt_pi_div_two (u : ℝ) (h1 : u < 1) :
    (u + 0.008) / 1.008 * (Real.pi / 2) < Real.pi / 2 := by
  have h : (u + 0.008) / 1.008 < 1 := by
    rw [div_lt_one (by norm_num)]
    linarith
  have hπ : (0 : ℝ) < Real.pi / 2 := by positivity
  calc (u + 0.008) / 1.008 * (Real.pi / 2) < 1 * (Real.pi / 2) :=
        mul_lt_mul_of_pos_right h hπ
    _ = Real.pi / 2 := one_mul _

lemma gCos_strictMono (u v : ℝ) (huv : u < v) :
    (u + 0.008) / 1.008 * (Real.pi / 2) <
      (v + 0.008) / 1.008 * (Real.pi / 2) := by
  have hπ : (0 : ℝ) < Real.pi / 2 := by positivity
  apply mul_lt_mul_of_pos_right _ hπ
  rw [div_lt_div_iff_of_pos_right (by norm_num)]
  linarith

lemma alphaBarCos_pos (u : ℝ) (h0 : 0 ≤ u) (h1 : u < 1) :
    0 < alphaBarCos u := by
  unfold alphaBarCos
  have hc : 0 < Real.cos ((u + 0.008) / 1.008 * (Real.pi / 2)) := by
    apply Real.cos_pos_of_mem_Ioo
    refine Set.mem_Ioo.mpr ⟨?_, gCos_lt_pi_div_two u h1⟩
    have := gCos_nonneg u h0
    have hπ : (0 : ℝ) < Real.pi / 2 := by positivity
    linarith
  positivity

lemma alphaBarCos_strictAnti (u v : ℝ) (h0 : 0 ≤ u) (huv : u < v)
    (h1 : v ≤ 1) : alphaBarCos v < alphaBarCos u := by
  have hπ : (0 : ℝ) < Real.pi := Real.pi_pos
  have hgu0 : 0 ≤ (u + 0.008) / 1.008 * (Real.pi / 2) := gCos_nonneg u h0
  have hgv0 : 0 ≤ (v + 0.008) / 1.008 * (Real.pi / 2) :=
    gCos_nonneg v (by linarith)
  have hguπ : (u + 0.008) / 1.008 * (Real.pi / 2) ≤ Real.pi := by
    have := gCos_le_pi_div_two u (by linarith)
    linarith
  have hgvπ2 : (v + 0.008) / 1.008 * (Real.pi / 2) ≤ Real.pi / 2 :=
    gCos_le_pi_div_two v h1
  have hlt : (u + 0.008) / 1.008 * (Real.pi / 2) <
      (v + 0.008) / 1.008 * (Real.pi / 2) := gCos_strictMono u v huv
  have hcos : Real.cos ((v + 0.008) / 1.008 * (Real.pi / 2)) <
      Real.cos ((u + 0.008) / 1.008 * (Real.pi / 2)) :=
    Real.strictAntiOn_cos (Set.mem_Icc.mpr ⟨hgu0, hguπ⟩)
      (Set.mem_Icc.mpr ⟨hgv0, by linarith⟩) hlt
  have hnn : 0 ≤ Real.cos ((v + 0.008) / 1.008 * (Real.pi / 2)) :=
    Real.cos_nonneg_of_mem_Icc (Set.mem_Icc.mpr ⟨by linarith, hgvπ2⟩)
  unfold alphaBarCos
  nlinarith [hcos, hnn]

/-- Every cosine-schedule beta lies in the open interval `(0,1)` (in fact in
`(0, 0.999]`). -/
lemma betaCosine_pos_lt_one (T i : ℕ) (hi : i < T) :
    0 < betaCosine T i ∧ betaCosine T i < 1 := by
  have hT : 0 < (T : ℝ) := by
    have : 0 < T := by omega
    exact_mod_cast this
  have ht1a : 0 ≤ (i : ℝ) / T := by positivity
  have ht1b : (i : ℝ) / T < 1 := (div_lt_one hT).mpr (by exact_mod_cast hi)
  have ht2b : ((i : ℝ) + 1) / T ≤ 1 := by
    rw [div_le_one hT]
    have : (i : ℝ) + 1 ≤ T := by exact_mod_cast Nat.succ_le_of_lt hi
    linarith
  have ht12 : (i : ℝ) / T < ((i : ℝ) + 1) / T := by
    rw [div_lt_div_iff_of_pos_right hT]
    linarith
  have hf1 : 0 < alphaBarCos ((i : ℝ) / T) := alphaBarCos_pos _ ht1a ht1b
  have hf2lt : alphaBarCos (((i : ℝ) + 1) / T) < alphaBarCos ((i : ℝ) / T) :=
    alphaBarCos_strictAnti _ _ ht1a ht12 ht2b
  have hf2nn : 0 ≤ alphaBarCos (((i : ℝ) + 1) / T) := by
    unfold alphaBarCos
    positivity
  have hratio : alphaBarCos (((i : ℝ) + 1) / T) / alphaBarCos ((i : ℝ) / T) < 1 :=
    (div_lt_one hf1).mpr hf2lt
  have hrnn : 0 ≤ alphaBarCos (((i : ℝ) + 1) / T) / alphaBarCos ((i : ℝ) / T) :=
    div_nonneg hf2nn hf1.le
  unfold betaCosine
  push_cast
  constructor
  · exact lt_min (by linarith) (by norm_num)
  · exact lt_of_le_of_lt (min_le_right _ _) (by norm_num)

/-- Claim C6 counterexample: at `T = 20` the linear schedule (in exact
arithmetic) has every beta in `(0,1]` - the claim's hypothesis - but the
final beta equals exactly `1`, so `alphas_cumprod[T-1] = 0` and the claimed
`alphas_cumprod[T-1] > 0` fails. -/
theorem claim_C6_counterexample :
    (∀ i, i < 20 → 0 < betaLinear 20 i ∧ betaLinear 20 i ≤ 1) ∧
    ¬ (0 < alphas_cumprod (betaLinear 20) (20 - 1)) := by
  have hval : ∀ i : ℕ, betaLinear 20 i = 0.005 + i * (0.995 / 19) := by
    intro i
    unfold betaLinear linspaceVal
    norm_num
  constructor
  · intro i hi
    rw [hval i]
    have hi19 : (i : ℝ) ≤ 19 := by exact_mod_cast Nat.lt_succ_iff.mp hi
    have hnn : (0 : ℝ) ≤ (i : ℝ) := Nat.cast_nonneg i
    constructor
    · nlinarith
    · nlinarith
  · have h19 : betaLinear 20 19 = 1 := by
      rw [hval 19]
      norm_num
    have hz : alphas_cumprod (betaLinear 20) 19 = 0 := by
      unfold alphas_cumprod
      exact Finset.prod_eq_zero
        (Finset.mem_range.mpr (by norm_num) : (19 : ℕ) ∈ Finset.range 20)
        (by rw [h19]; norm_num)
    rw [show (20 : ℕ) - 1 = 19 from rfl, hz]
    exact lt_irrefl 0

/-- Claim C6 (amended): the named builders produce exactly the
`betaLinear` / `betaCosine` sequences; for the cosine schedule,
*unconditionally* for every `T >= 1`, and for the linear schedule under the
*strengthened* hypothesis that all its betas lie in the open interval
`(0,1)` (at `T = 20` the closed-interval hypothesis of the original claim
admits a final beta equal to 1, see the counterexample), all betas lie in
`(0,1]` and the derived `alphas_cumprod` is strictly decreasing with
`alphas_cumprod[0] < 1` and `alphas_cumprod[T-1] > 0`. -/
theorem claim_C6 (T : ℕ) (hT : 1 ≤ T) :
    (get_named_beta_schedule "linear" T =
        Except.ok ((List.range T).map (betaLinear T)) ∧
      get_named_beta_schedule "cosine" T =
        Except.ok ((List.range T).map (betaCosine T))) ∧
    ((∀ i < T, 0 < betaLinear T i ∧ betaLinear T i < 1) →
      ((∀ i < T, 0 < betaLinear T i ∧ betaLinear T i ≤ 1) ∧
        (∀ i j, i < j → j < T →
          alphas_cumprod (betaLinear T) j < alphas_cumprod (betaLinear T) i) ∧
        alphas_cumprod (betaLinear T) 0 < 1 ∧
        0 < alphas_cumprod (betaLinear T) (T - 1))) ∧
    ((∀ i < T, 0 < betaCosine T i ∧ betaCosine T i ≤ 1) ∧
      (∀ i j, i < j → j < T →
        alphas_cumprod (betaCosine T) j < alphas_cumprod (betaCosine T) i) ∧
      alphas_cumprod (betaCosine T) 0 < 1 ∧
      0 < alphas_cumprod (betaCosine T) (T - 1)) := by
  have hcos : ∀ i < T, 0 < betaCosine T i ∧ betaCosine T i < 1 :=
    fun i hi => betaCosine_pos_lt_one T i hi
  have main : ∀ betas : ℕ → ℝ, (∀ i < T, 0 < betas i ∧ betas i < 1) →
      (∀ i < T, 0 < betas i ∧ betas i ≤ 1) ∧
      (∀ i j, i < j → j < T →
        alphas_cumprod betas j < alphas_cumprod betas i) ∧
      alphas_cumprod betas 0 < 1 ∧ 0 < alphas_cumprod betas (T - 1) := by
    intro betas hb
    refine ⟨fun i hi => ⟨(hb i hi).1, (hb i hi).2.le⟩,
      alphas_cumprod_strict_anti betas T hb, ?_, ?_⟩
    · exact (alphas_cumprod_pos_lt_one betas 0 fun i hi => hb i (by omega)).2
    · exact (alphas_cumprod_pos_lt_one betas (T - 1) fun i hi =>
        hb i (by omega)).1
  exact ⟨⟨rfl, rfl⟩, fun hlin => main _ hlin, main _ hcos⟩

/-- Witness for claim C6: the cosine conjunct at `T = 4` (the spec's own
cosine scenario, where the linear hypothesis is false), and the full
statement including the discharged linear implication at `T = 21` (the
smallest step count whose linear betas all lie in `(0,1)`). -/
theorem claim_C6_witness :
    ((get_named_beta_schedule "linear" 4 =
        Except.ok ((List.range 4).map (betaLinear 4)) ∧
      get_named_beta_schedule "cosine" 4 =
        Except.ok ((List.range 4).map (betaCosine 4))) ∧
    ((∀ i < 4, 0 < betaCosine 4 i ∧ betaCosine 4 i ≤ 1) ∧
      (∀ i j, i < j → j < 4 →
        alphas_cumprod (betaCosine 4) j < alphas_cumprod (betaCosine 4) i) ∧
      alphas_cumprod (betaCosine 4) 0 < 1 ∧
      0 < alphas_cumprod (betaCosine 4) (4 - 1))) ∧
    ((∀ i < 21, 0 < betaLinear 21 i ∧ betaLinear 21 i < 1) ∧
      ((∀ i < 21, 0 < betaLinear 21 i ∧ betaLinear 21 i ≤ 1) ∧
        (∀ i j, i < j → j < 21 →
          alphas_cumprod (betaLinear 21) j <
            alphas_cumprod (betaLinear 21) i) ∧
        alphas_cumprod (betaLinear 21) 0 < 1 ∧
        0 < alphas_cumprod (betaLinear 21) (21 - 1))) := by
  have hlin21 : ∀ i < 21, 0 < betaLinear 21 i ∧ betaLinear 21 i < 1 := by
    intro i hi
    have hval : betaLinear 21 i = 0.1 / 21 + i * (0.995 / 21) := by
      unfold betaLinear linspaceVal
      norm_num
    rw [hval]
    have hi20 : (i : ℝ) ≤ 20 := by exact_mod_cast Nat.lt_succ_iff.mp hi
    have hnn : (0 : ℝ) ≤ (i : ℝ) := Nat.cast_nonneg i
    constructor
    · nlinarith
    · nlinarith
  obtain ⟨hb4, -, hcos4⟩ := claim_C6 4 (by norm_num)
  obtain ⟨-, hlinimp, -⟩ := claim_C6 21 (by norm_num)
  exact ⟨⟨hb4, hcos4⟩, hlin21, hlinimp hlin21⟩

/-- Claim C7: the linear schedule returns exactly `T` betas, starting at
`(1000/T) * 1e-4`, ending (for `T >= 2`) at `(1000/T) * 2e-2`, with constant
consecutive spacing `(end - start) / (T - 1)` and strictly increasing
values; for `T = 1000` the first beta is exactly `0.0001` and the last
exactly `0.02`. -/
theorem claim_C7 (T : ℕ) :
    ∃ l, get_named_beta_schedule "linear" T = Except.ok l ∧
      l.length = T ∧
      (1 ≤ T → l.getD 0 0 = (1000 / (T : ℝ)) * 0.0001) ∧
      (2 ≤ T → l.getD (T - 1) 0 = (1000 / (T : ℝ)) * 0.02) ∧
      (∀ i, i + 1 < T → l.getD (i + 1) 0 - l.getD i 0 =
        ((1000 / (T : ℝ)) * 0.02 - (1000 / (T : ℝ)) * 0.0001) /
          ((T : ℝ) - 1)) ∧
      (∀ i j, i < j → j < T → l.getD i 0 < l.getD j 0) ∧
      (T = 1000 → l.getD 0 0 = 0.0001 ∧ l.getD 999 0 = 0.02) := by
  refine ⟨linspaceList ((1000 / (T : ℝ)) * 0.0001) ((1000 / (T : ℝ)) * 0.02) T,
    rfl, ?_, ?_, ?_, ?_, ?_, ?_⟩
  · simp [linspaceList]
  · intro h1T
    unfold linspaceList
    rw [range_map_getD _ _ _ (by omega), linspaceVal_zero]
  · intro h2T
    unfold linspaceList
    rw [range_map_getD _ _ _ (by omega), linspaceVal_last _ _ _ h2T]
  · intro i hi
    unfold linspaceList
    rw [range_map_getD _ _ _ (by omega), range_map_getD _ _ _ (by omega),
      linspaceVal_step _ _ _ _ hi]
  · intro i j hij hj
    unfold linspaceList
    rw [range_map_getD _ _ _ (by omega), range_map_getD _ _ _ (by omega)]
    refine linspaceVal_strictMono _ _ _ ?_ _ _ hij hj
    have hT : (0 : ℝ) < (T : ℝ) := by
      have : 0 < T := by omega
      exact_mod_cast this
    have h1000 : (0 : ℝ) < 1000 / (T : ℝ) := by positivity
    nlinarith
  · intro hT1000
    subst hT1000
    constructor
    · unfold linspaceList
      rw [range_map_getD _ _ _ (by norm_num), linspaceVal_zero]
      norm_num
    · unfold linspaceList
      rw [range_map_getD _ _ _ (by norm_num)]
      have hlast := linspaceVal_last ((1000 / ((1000 : ℕ) : ℝ)) * 0.0001)
        ((1000 / ((1000 : ℕ) : ℝ)) * 0.02) 1000 (by norm_num)
      norm_num at hlast ⊢
      exact hlast

/-- Witness for claim C7 at `T = 1000`. -/
theorem claim_C7_witness :
    ∃ l, get_named_beta_schedule "linear" 1000 = Except.ok l ∧
      l.length = 1000 ∧ l.getD 0 0 = 0.0001 ∧ l.getD 999 0 = 0.02 := by
  obtain ⟨l, h1, h2, h3, h4, h5, h6, h7⟩ := claim_C7 1000
  obtain ⟨ha, hb⟩ := h7 rfl
  exact ⟨l, h1, h2, ha, hb⟩

end ImprovedDiffusion
